import Mathlib

/-!
Shallow embedding of the document rendering pipeline of the blw-diagnostic-agent
repository: the pydantic document model of
src/diagnostic_agent/sub_agents/doc_structure_planner/agent.py and the tool
create_docx_from_structure of src/diagnostic_agent/tools/docx_creator.py.

Python exceptions are modelled with an error monad; docx output is modelled as a
list of blocks; the ADK tool state is modelled as a record of the keys the tool
reads and writes.
-/

namespace DiagDocx

/-- Python exception kinds raised along the modelled paths: ValueError with a
message, AttributeError naming the missing attribute, and pydantic
ValidationError naming an offending field. -/
inductive PyError where
  | valueError (msg : String)
  | attributeError (attr : String)
  | validationError (field : String)
deriving DecidableEq

/-- A run inside a docx table cell paragraph: its text and bold flag, as set by
cell_paragraph.add_run in docx_creator.py. -/
structure Run where
  text : String
  bold : Bool
deriving DecidableEq

/-- One block appended to the output document: a heading with a level, a
paragraph with an optional named style, or a table given as a rows-by-columns
grid of run lists (a cell that was never written has no runs). -/
inductive Block where
  | heading (text : String) (level : Nat)
  | para (text : String) (style : Option String)
  | table (cells : List (List (List Run)))
deriving DecidableEq

/-- A Python attribute slot: absent means the object has no such attribute
(access raises AttributeError), null means the attribute holds None, val holds
an actual value. -/
inductive Attr (α : Type) where
  | absent
  | null
  | val (a : α)
deriving DecidableEq

/-- Attribute access: raises AttributeError when the attribute is absent,
otherwise yields None or the value. -/
def Attr.get {α : Type} (a : Attr α) (name : String) : Except PyError (Option α) :=
  match a with
  | .absent => .error (.attributeError name)
  | .null => .ok none
  | .val x => .ok (some x)

/-- Python truthiness of an optional string: None and the empty string are
falsy. -/
def optStrTruthy : Option String → Bool
  | some s => !(s == "")
  | none => false

/-- Python truthiness of an optional list: None and the empty list are falsy. -/
def optListTruthy {α : Type} : Option (List α) → Bool
  | some l => !l.isEmpty
  | none => false

/-- An element as the renderer in docx_creator.py sees it: the five attributes
it may read, each of which may be absent from the underlying object. -/
structure PyElement where
  type : String
  content : Attr String
  list_items : Attr (List String)
  table_data : Attr (List (List String))
  quote_text : Attr String
deriving DecidableEq

/-- Whether the pattern is a prefix of the character list, modelling the
Python startswith test. -/
def startsWithChars : List Char → List Char → Bool
  | [], _ => true
  | _ :: _, [] => false
  | p :: ps, c :: cs => p == c && startsWithChars ps cs

/-- Split a character list on a separator character, modelling the Python
split call with a one-character separator. -/
def splitCharsOn (sep : Char) : List Char → List (List Char)
  | [] => [[]]
  | c :: cs =>
    let rest := splitCharsOn sep cs
    if c == sep then [] :: rest
    else (c :: rest.headD []) :: rest.tail

/-- Split a string on a separator character. -/
def pySplit (s : String) (sep : Char) : List String :=
  (splitCharsOn sep s.toList).map (fun cs => String.mk cs)

/-- The whitespace characters stripped by the Python strip call. -/
def pyWhitespaceChar (c : Char) : Bool :=
  c == ' ' || c == '\t' || c == '\n' || c == '\r'

/-- Strip leading and trailing whitespace, modelling the Python strip call. -/
def pyStrip (s : String) : String :=
  String.mk (((s.toList.dropWhile pyWhitespaceChar).reverse.dropWhile
    pyWhitespaceChar).reverse)

/-- Replace every non-overlapping occurrence of the pattern, left to right,
with fuel bounding the number of steps; modelling the Python replace call. -/
def replaceCharsAux (pat repl : List Char) : Nat → List Char → List Char
  | _, [] => []
  | 0, cs => cs
  | fuel + 1, c :: cs =>
    if startsWithChars pat (c :: cs) && !pat.isEmpty then
      repl ++ replaceCharsAux pat repl fuel ((c :: cs).drop pat.length)
    else c :: replaceCharsAux pat repl fuel cs

/-- Replace every occurrence of a pattern in a string, modelling the Python
replace call. -/
def pyReplace (s pat repl : String) : String :=
  String.mk (replaceCharsAux pat.toList repl.toList s.toList.length s.toList)

/-- Join string parts with a separator. -/
def joinWith (sep : String) : List String → String
  | [] => ""
  | [x] => x
  | x :: xs => x ++ sep ++ joinWith sep xs

/-- Lines split as in the renderer fallback loops: split content on newline,
strip each line, keep non-blank lines. -/
def splitNonBlankLines (s : String) : List String :=
  ((pySplit s '\n').map pyStrip).filter (fun l => !(l == ""))

/-- Strip leading and trailing pipe characters, modelling the Python call
row.strip with a pipe argument. -/
def stripPipes (s : String) : String :=
  String.mk (((s.toList.dropWhile (fun c => c == '|')).reverse.dropWhile
    (fun c => c == '|')).reverse)

/-- Parse one markdown table row: strip outer pipes, split on pipes, trim each
cell, as in docx_creator.py lines 136-138. -/
def parseMdRow (row : String) : List String :=
  (pySplit (stripPipes row) '|').map pyStrip

/-- Maximum row length over the rows of structured table data, modelling the
Python max over len of each row. -/
def maxRowLen (rows : List (List String)) : Nat :=
  rows.foldl (fun m r => max m r.length) 0

/-- The grid built by add_table followed by the cell-writing loop: cell (i, j)
receives one run with the cell text, bold on the header row, whenever j is
within row i; other cells keep no runs. -/
def pyGrid (data : List (List String)) (cols : Nat) : List (List (List Run)) :=
  data.enum.map (fun p =>
    (List.range cols).map (fun j =>
      match p.2.get? j with
      | some cell => [Run.mk cell (p.1 == 0)]
      | none => []))

/-- The grid built by the markdown table fallback: column count is the length
of the first parsed row, later cells beyond that count are dropped. -/
def mdGrid (parsed : List (List String)) : List (List (List Run)) :=
  pyGrid parsed (parsed.headD []).length

/-- Whether the tag is one of the six heading tags tested at docx_creator.py
line 160. -/
def isHeadingTag (t : String) : Bool :=
  t == "h1" || t == "h2" || t == "h3" || t == "h4" || t == "h5" || t == "h6"

/-- Heading level extracted from a heading tag, modelling int applied to the
second character of the tag. -/
def headingLevel (t : String) : Nat :=
  if t = "h1" then 1 else if t = "h2" then 2 else if t = "h3" then 3
  else if t = "h4" then 4 else if t = "h5" then 5 else if t = "h6" then 6 else 0

/-- The per-element dispatch of docx_creator.py lines 88-164 (identical to the
subsection copy at lines 171-238): one branch per tag in source order, each
attribute read going through Attr.get so that an access to an attribute the
object lacks raises AttributeError exactly as in Python. -/
def renderElement (el : PyElement) : Except PyError (List Block) :=
  if el.type = "p" then
    match el.content.get "content" with
    | .error e => .error e
    | .ok c => .ok [Block.para (c.getD "") none]
  else if el.type = "ul" then
    match el.list_items.get "list_items" with
    | .error e => .error e
    | .ok li =>
      if optListTruthy li then
        .ok ((li.getD []).map (fun item => Block.para item (some "List Bullet")))
      else
        match el.content.get "content" with
        | .error e => .error e
        | .ok c =>
          if optStrTruthy c then
            .ok ((splitNonBlankLines (c.getD "")).map
              (fun line => Block.para line (some "List Bullet")))
          else .ok []
  else if el.type = "ol" then
    match el.list_items.get "list_items" with
    | .error e => .error e
    | .ok li =>
      if optListTruthy li then
        .ok ((li.getD []).map (fun item => Block.para item (some "List Number")))
      else
        match el.content.get "content" with
        | .error e => .error e
        | .ok c =>
          if optStrTruthy c then
            .ok ((splitNonBlankLines (c.getD "")).map
              (fun line => Block.para line (some "List Number")))
          else .ok []
  else if el.type = "li" then
    match el.content.get "content" with
    | .error e => .error e
    | .ok c => .ok [Block.para (c.getD "") (some "List Number")]
  else if el.type = "table" then
    match el.table_data.get "table_data" with
    | .error e => .error e
    | .ok td =>
      if optListTruthy td then
        let data := td.getD []
        let numCols := maxRowLen data
        if 0 < numCols then .ok [Block.table (pyGrid data numCols)]
        else .ok []
      else
        match el.content.get "content" with
        | .error e => .error e
        | .ok c =>
          if optStrTruthy c then
            let rows := splitNonBlankLines (pyStrip (c.getD ""))
            if rows.isEmpty then .ok []
            else .ok [Block.table (mdGrid (rows.map parseMdRow))]
          else .ok []
  else if el.type = "quote" then
    match el.quote_text.get "quote_text" with
    | .error e => .error e
    | .ok q =>
      if optStrTruthy q then .ok [Block.para (q.getD "") (some "Quote")]
      else
        match el.content.get "content" with
        | .error e => .error e
        | .ok c =>
          if optStrTruthy c then .ok [Block.para (c.getD "") (some "Quote")]
          else .ok []
  else if isHeadingTag el.type then
    match el.content.get "content" with
    | .error e => .error e
    | .ok c => .ok [Block.heading (c.getD "") (headingLevel el.type)]
  else
    match el.content.get "content" with
    | .error e => .error e
    | .ok c => .ok [Block.para (c.getD "") none]

/-! The pydantic document model of doc_structure_planner/agent.py.  DocElement
declares exactly two fields: a type restricted to the Literal tags and a
required content string.  It declares no list_items, table_data or quote_text
field, so a validated element never carries those attributes. -/

/-- DocElement as declared in agent.py lines 7-9: only type and content. -/
structure DocElement where
  type : String
  content : String
deriving DecidableEq

/-- Subsection as declared in agent.py lines 11-13: title and elements are both
required. -/
structure Subsection where
  title : String
  elements : List DocElement
deriving DecidableEq

/-- Section as declared in agent.py lines 15-20: required title, optional
description and conclusion, elements defaulting to the empty list, optional
subsections. -/
structure Section where
  title : String
  description : Option String
  conclusion : Option String
  elements : List DocElement
  subsections : Option (List Subsection)
deriving DecidableEq

/-- DocStructure as declared in agent.py lines 22-23. -/
structure DocStructure where
  sections : List Section
deriving DecidableEq

/-- The attribute view of a validated DocElement: type and content exist,
content is never None, and the three structured attributes are absent because
the pydantic class does not declare them. -/
def DocElement.toPy (el : DocElement) : PyElement :=
  { type := el.type, content := .val el.content,
    list_items := .absent, table_data := .absent, quote_text := .absent }

/-! Raw (untyped mapping) counterparts: what a JSON-decoded plan dict may carry
along the fields the model and the renderer mention.  An Option field set to
none models a key that is missing or null. -/

/-- A raw element mapping: it may carry the structured fields even though the
pydantic model does not declare them; validation ignores them. -/
structure RawElement where
  type : Option String
  content : Option String
  list_items : Option (List String)
  table_data : Option (List (List String))
  quote_text : Option String
deriving DecidableEq

/-- A raw subsection mapping. -/
structure RawSubsection where
  title : Option String
  elements : Option (List RawElement)
deriving DecidableEq

/-- A raw section mapping. -/
structure RawSection where
  title : Option String
  description : Option String
  conclusion : Option String
  elements : Option (List RawElement)
  subsections : Option (List RawSubsection)
deriving DecidableEq

/-- A raw plan mapping; sections none models a dict without the sections key. -/
structure RawPlan where
  sections : Option (List RawSection)
deriving DecidableEq

/-- The ten admissible element tags of the Literal annotation at agent.py
line 8.  Note the absence of ol and quote. -/
def docElementTypeOk (t : String) : Bool :=
  t == "p" || t == "ul" || t == "li" || t == "table" || t == "h1" || t == "h2"
    || t == "h3" || t == "h4" || t == "h5" || t == "h6"

/-- Pydantic validation of one element: type must be one of the Literal tags,
content must be a present string; the structured fields, being undeclared on
the model, are dropped. -/
def RawElement.validate (r : RawElement) : Except PyError DocElement :=
  match r.type with
  | none => .error (.validationError "type")
  | some t =>
    if docElementTypeOk t then
      match r.content with
      | none => .error (.validationError "content")
      | some c => .ok (DocElement.mk t c)
    else .error (.validationError "type")

/-- Pydantic validation of a list of elements, first error wins. -/
def validateElements : List RawElement → Except PyError (List DocElement)
  | [] => .ok []
  | r :: rs =>
    match r.validate with
    | .error e => .error e
    | .ok d =>
      match validateElements rs with
      | .error e => .error e
      | .ok ds => .ok (d :: ds)

/-- Pydantic validation of one subsection: title and elements required. -/
def RawSubsection.validate (r : RawSubsection) : Except PyError Subsection :=
  match r.title with
  | none => .error (.validationError "title")
  | some t =>
    match r.elements with
    | none => .error (.validationError "elements")
    | some els =>
      match validateElements els with
      | .error e => .error e
      | .ok ds => .ok (Subsection.mk t ds)

/-- Pydantic validation of a list of subsections. -/
def validateSubsections : List RawSubsection → Except PyError (List Subsection)
  | [] => .ok []
  | r :: rs =>
    match r.validate with
    | .error e => .error e
    | .ok s =>
      match validateSubsections rs with
      | .error e => .error e
      | .ok ss => .ok (s :: ss)

/-- Pydantic validation of one section: title required, elements default to the
empty list, subsections optional. -/
def RawSection.validate (r : RawSection) : Except PyError Section :=
  match r.title with
  | none => .error (.validationError "title")
  | some t =>
    match validateElements (r.elements.getD []) with
    | .error e => .error e
    | .ok els =>
      match r.subsections with
      | none => .ok (Section.mk t r.description r.conclusion els none)
      | some subs =>
        match validateSubsections subs with
        | .error e => .error e
        | .ok ss => .ok (Section.mk t r.description r.conclusion els (some ss))

/-- Pydantic validation of a list of sections. -/
def validateSections : List RawSection → Except PyError (List Section)
  | [] => .ok []
  | r :: rs =>
    match r.validate with
    | .error e => .error e
    | .ok s =>
      match validateSections rs with
      | .error e => .error e
      | .ok ss => .ok (s :: ss)

/-! The tool create_docx_from_structure of docx_creator.py. -/

/-- A value the state may hold under the doc_structure key: a string, an
untyped mapping, an already-typed DocStructure instance, or anything else. -/
inductive StateVal where
  | str (s : String)
  | dict (p : RawPlan)
  | typed (d : DocStructure)
  | other
deriving DecidableEq

/-- The tool state restricted to the keys create_docx_from_structure reads and
writes; a none field models an absent key. -/
structure PipelineState where
  output_path : Option String
  language : Option String
  doc_structure : Option StateVal
  document_language : Option String
  generated_docx : Option String
deriving DecidableEq

/-- A plan candidate selected from the state: docx_creator.py lines 38-44 only
select a dict or a DocStructure instance, never a string, which is why the
string-parsing branch at lines 50-55 and the TypeError branch at lines 63-64
are unreachable. -/
inductive Candidate where
  | dict (p : RawPlan)
  | typed (d : DocStructure)
deriving DecidableEq

/-- Lines 37-44: take state doc_structure when it is a dict containing the
sections key or a DocStructure instance; anything else leaves no candidate. -/
def findCandidate (ctx : Option PipelineState) : Option Candidate :=
  match ctx with
  | none => none
  | some st =>
    match st.doc_structure with
    | some (.dict p) => if p.sections.isSome then some (Candidate.dict p) else none
    | some (.typed d) => some (Candidate.typed d)
    | _ => none

/-- The PlanMissingError message raised at line 48. -/
def planMissingMsg : String :=
  "doc_structure not found in state. Ensure doc_structure_planner_agent has been called first."

/-- The PlanShapeError message raised at line 60. -/
def sectionsKeyMsg : String := "doc_structure dict must have 'sections' key"

/-- Lines 57-64: a dict is re-checked for the sections key and coerced through
pydantic validation; a typed instance is accepted as-is. -/
def coercePlan : Candidate → Except PyError DocStructure
  | .dict p =>
    match p.sections with
    | none => .error (.valueError sectionsKeyMsg)
    | some secs =>
      match validateSections secs with
      | .error e => .error e
      | .ok ss => .ok (DocStructure.mk ss)
  | .typed d => .ok d

/-- Rendering of the element list of a section or subsection, each element
through its validated attribute view. -/
def renderDocElements : List DocElement → Except PyError (List Block)
  | [] => .ok []
  | el :: els =>
    match renderElement el.toPy with
    | .error e => .error e
    | .ok bs =>
      match renderDocElements els with
      | .error e => .error e
      | .ok rest => .ok (bs ++ rest)

/-- Lines 168-238: a level-2 heading with the subsection title followed by its
elements in order. -/
def renderSubsection (sub : Subsection) : Except PyError (List Block) :=
  match renderDocElements sub.elements with
  | .error e => .error e
  | .ok bs => .ok (Block.heading sub.title 2 :: bs)

/-- Rendering of a list of subsections in order. -/
def renderSubsections : List Subsection → Except PyError (List Block)
  | [] => .ok []
  | s :: ss =>
    match renderSubsection s with
    | .error e => .error e
    | .ok bs =>
      match renderSubsections ss with
      | .error e => .error e
      | .ok rest => .ok (bs ++ rest)

/-- Lines 78-242 for one section: level-1 title heading, description paragraph
when truthy, elements in order, subsections when truthy, conclusion paragraph
when truthy. -/
def renderSection (sec : Section) : Except PyError (List Block) :=
  match renderDocElements sec.elements with
  | .error e => .error e
  | .ok els =>
    match (match sec.subsections with
           | some ss => renderSubsections ss
           | none => .ok []) with
    | .error e => .error e
    | .ok subs =>
      .ok (Block.heading sec.title 1
        :: ((if optStrTruthy sec.description
             then [Block.para (sec.description.getD "") none] else [])
          ++ els ++ subs
          ++ (if optStrTruthy sec.conclusion
              then [Block.para (sec.conclusion.getD "") none] else [])))

/-- Rendering of the sections of a plan in order. -/
def renderSections : List Section → Except PyError (List Block)
  | [] => .ok []
  | s :: ss =>
    match renderSection s with
    | .error e => .error e
    | .ok bs =>
      match renderSections ss with
      | .error e => .error e
      | .ok rest => .ok (bs ++ rest)

/-- The document body produced by the section loop of lines 78-242. -/
def assemble (d : DocStructure) : Except PyError (List Block) :=
  renderSections d.sections

/-- Lines 24-32: default the output path, then let a state entry override it
unconditionally. -/
def resolveOutputPath (explicit : Option String) (ctx : Option PipelineState) : String :=
  let v := explicit.getD "diagnostic_report.docx"
  match ctx with
  | some st => st.output_path.getD v
  | none => v

/-- Lines 26-34: default the language, then let a state entry override it
unconditionally. -/
def resolveLanguage (explicit : Option String) (ctx : Option PipelineState) : String :=
  let v := explicit.getD "uk"
  match ctx with
  | some st => st.language.getD v
  | none => v

/-- Parent directory of a path, modelling pathlib parent for the mkdir call at
line 67. -/
def parentDir (p : String) : String :=
  let parts := pySplit p '/'
  if parts.length ≤ 1 then "." else joinWith "/" parts.dropLast

/-- Absolute form of a path against the working directory, modelling pathlib
absolute at line 247. -/
def absolutize (cwd p : String) : String :=
  if startsWithChars "/".toList p.toList then p else cwd ++ "/" ++ p

instance {ε α : Type} [DecidableEq ε] [DecidableEq α] : DecidableEq (Except ε α) := fun x y =>
  match x, y with
  | .ok a, .ok b =>
    if h : a = b then .isTrue (by rw [h]) else .isFalse (fun hc => h (Except.ok.inj hc))
  | .error a, .error b =>
    if h : a = b then .isTrue (by rw [h]) else .isFalse (fun hc => h (Except.error.inj hc))
  | .ok _, .error _ => .isFalse (fun hc => Except.noConfusion hc)
  | .error _, .ok _ => .isFalse (fun hc => Except.noConfusion hc)

/-- The observable outcome of one call: the returned status or raised error,
the final tool state, the directories created and the file saved. -/
structure DocxOutcome where
  result : Except PyError String
  ctx : Option PipelineState
  mkdirs : List String
  saved : Option (String × List Block)
deriving DecidableEq

/-- create_docx_from_structure of docx_creator.py lines 8-249: resolve the two
parameters (state entries override explicit arguments), select and coerce the
plan candidate, create the parent directory, store document_language in the
state, render all sections, save, and only then store generated_docx. -/
def create_docx_from_structure (output_path language : Option String)
    (ctx : Option PipelineState) (cwd : String) : DocxOutcome :=
  let op := resolveOutputPath output_path ctx
  let lg := resolveLanguage language ctx
  match findCandidate ctx with
  | none => DocxOutcome.mk (.error (.valueError planMissingMsg)) ctx [] none
  | some cand =>
    match coercePlan cand with
    | .error e => DocxOutcome.mk (.error e) ctx [] none
    | .ok plan =>
      let dirs := [parentDir op]
      let ctx1 := ctx.map (fun st => { st with document_language := some lg })
      match assemble plan with
      | .error e => DocxOutcome.mk (.error e) ctx1 dirs none
      | .ok blocks =>
        let ctx2 := ctx1.map (fun st =>
          { st with generated_docx := some (absolutize cwd op),
                    document_language := some lg })
        DocxOutcome.mk
          (.ok ("Docx created at " ++ op ++ " (language: " ++ lg ++ ")"))
          ctx2 dirs (some (op, blocks))

/-- Fence stripping of save_doc_structure_callback, agent.py lines 44-48: a
response starting with a json-tagged fence has both markers replaced away and
the rest stripped; a bare fence likewise; other text is left unchanged. -/
def stripFencedText (s : String) : String :=
  if startsWithChars "```json".toList s.toList then
    pyStrip (pyReplace (pyReplace s "```json" "") "```" "")
  else if startsWithChars "```".toList s.toList then
    pyStrip (pyReplace s "```" "")
  else s

/-- Classifier: is the error an AttributeError. -/
def PyError.isAttr : PyError → Bool
  | .attributeError _ => true
  | _ => false

/-- Classifier: is the error a pydantic ValidationError. -/
def PyError.isValidation : PyError → Bool
  | .validationError _ => true
  | _ => false

/-- A state value usable as a plan candidate per docx_creator.py lines 38-44: a
mapping containing the sections key or a typed DocStructure instance. -/
def usablePlanVal : StateVal → Bool
  | .dict p => p.sections.isSome
  | .typed _ => true
  | _ => false

/-- The tags carrying a dedicated branch in the renderer dispatch; every other
tag falls to the final plain-paragraph branch. -/
def rendererDispatchTag (t : String) : Bool :=
  t == "p" || t == "ul" || t == "ol" || t == "li" || t == "table" || t == "quote"
    || isHeadingTag t

/-- The element tags whose validated rendering reads no undeclared attribute
and emits no level-1 heading: paragraphs, singleton list items and headings of
level two to six. -/
def safeKind (t : String) : Bool :=
  t == "p" || t == "li" || t == "h2" || t == "h3" || t == "h4" || t == "h5" || t == "h6"

/-- Blocks produced for one safe-kind validated element. -/
def safeElementBlocks (el : DocElement) : List Block :=
  if el.type = "p" then [Block.para el.content none]
  else if el.type = "li" then [Block.para el.content (some "List Number")]
  else [Block.heading el.content (headingLevel el.type)]

/-- Refinement target following the claim wording for subsection order: a
level-2 title heading followed by the subsection elements in order. -/
def plannedSubsectionBlocks (sub : Subsection) : List Block :=
  Block.heading sub.title 2 :: (sub.elements.map safeElementBlocks).flatten

/-- Refinement target following the claim wording for section order: title
heading, optional description paragraph, elements in order, subsection blocks,
optional conclusion paragraph. -/
def plannedSectionBlocks (sec : Section) : List Block :=
  Block.heading sec.title 1
    :: ((if optStrTruthy sec.description
         then [Block.para (sec.description.getD "") none] else [])
      ++ (sec.elements.map safeElementBlocks).flatten
      ++ ((sec.subsections.getD []).map plannedSubsectionBlocks).flatten
      ++ (if optStrTruthy sec.conclusion
          then [Block.para (sec.conclusion.getD "") none] else []))

/-- All elements of the subsection have safe kinds. -/
def Subsection.allSafe (sub : Subsection) : Bool :=
  sub.elements.all (fun el => safeKind el.type)

/-- All elements of the section, including subsection elements, have safe
kinds. -/
def Section.allSafe (sec : Section) : Bool :=
  sec.elements.all (fun el => safeKind el.type)
    && (sec.subsections.getD []).all Subsection.allSafe

/-- All elements of the plan have safe kinds. -/
def DocStructure.allSafe (d : DocStructure) : Bool :=
  d.sections.all Section.allSafe

/-- The titles of the level-1 headings of a block list, in order. -/
def levelOneTitles (bs : List Block) : List String :=
  bs.filterMap (fun b =>
    match b with
    | Block.heading t 1 => some t
    | _ => none)

/-! Helper lemmas. -/

theorem rawElement_validate_error (r : RawElement) (e : PyError)
    (h : r.validate = .error e) : e.isValidation = true := by
  cases ht : r.type with
  | none => simp only [RawElement.validate, ht] at h; cases h; rfl
  | some t =>
    by_cases hk : docElementTypeOk t = true
    · cases hc : r.content with
      | none =>
        simp [RawElement.validate, ht, hk, hc] at h
        cases h; rfl
      | some c => simp [RawElement.validate, ht, hk, hc] at h
    · simp only [RawElement.validate, ht] at h
      rw [if_neg hk] at h
      cases h; rfl

theorem validateElements_error (rs : List RawElement) (e : PyError)
    (h : validateElements rs = .error e) : e.isValidation = true := by
  induction rs with
  | nil => cases h
  | cons r rs ih =>
    cases hv : r.validate with
    | error e1 =>
      simp only [validateElements, hv] at h
      cases h; exact rawElement_validate_error r _ hv
    | ok d =>
      cases hrest : validateElements rs with
      | error e2 =>
        simp only [validateElements, hv, hrest] at h
        cases h; exact ih hrest
      | ok ds => simp [validateElements, hv, hrest] at h

theorem rawSubsection_validate_error (r : RawSubsection) (e : PyError)
    (h : r.validate = .error e) : e.isValidation = true := by
  cases ht : r.title with
  | none => simp only [RawSubsection.validate, ht] at h; cases h; rfl
  | some t =>
    cases hels : r.elements with
    | none => simp only [RawSubsection.validate, ht, hels] at h; cases h; rfl
    | some els =>
      cases hv : validateElements els with
      | error e1 =>
        simp only [RawSubsection.validate, ht, hels, hv] at h
        cases h; exact validateElements_error els _ hv
      | ok ds => simp [RawSubsection.validate, ht, hels, hv] at h

theorem validateSubsections_error (rs : List RawSubsection) (e : PyError)
    (h : validateSubsections rs = .error e) : e.isValidation = true := by
  induction rs with
  | nil => cases h
  | cons r rs ih =>
    cases hv : r.validate with
    | error e1 =>
      simp only [validateSubsections, hv] at h
      cases h; exact rawSubsection_validate_error r _ hv
    | ok s =>
      cases hrest : validateSubsections rs with
      | error e2 =>
        simp only [validateSubsections, hv, hrest] at h
        cases h; exact ih hrest
      | ok ss => simp [validateSubsections, hv, hrest] at h

theorem rawSection_validate_error (r : RawSection) (e : PyError)
    (h : r.validate = .error e) : e.isValidation = true := by
  cases ht : r.title with
  | none => simp only [RawSection.validate, ht] at h; cases h; rfl
  | some t =>
    cases hv : validateElements (r.elements.getD []) with
    | error e1 =>
      simp only [RawSection.validate, ht, hv] at h
      cases h; exact validateElements_error _ _ hv
    | ok els =>
      cases hs : r.subsections with
      | none => simp [RawSection.validate, ht, hv, hs] at h
      | some subs =>
        cases hvs : validateSubsections subs with
        | error e2 =>
          simp only [RawSection.validate, ht, hv, hs, hvs] at h
          cases h; exact validateSubsections_error subs _ hvs
        | ok ss => simp [RawSection.validate, ht, hv, hs, hvs] at h

theorem validateSections_error (rs : List RawSection) (e : PyError)
    (h : validateSections rs = .error e) : e.isValidation = true := by
  induction rs with
  | nil => cases h
  | cons r rs ih =>
    cases hv : r.validate with
    | error e1 =>
      simp only [validateSections, hv] at h
      cases h; exact rawSection_validate_error r _ hv
    | ok s =>
      cases hrest : validateSections rs with
      | error e2 =>
        simp only [validateSections, hv, hrest] at h
        cases h; exact ih hrest
      | ok ss => simp [validateSections, hv, hrest] at h

theorem renderElement_toPy_error (el : DocElement) (e : PyError)
    (h : renderElement el.toPy = .error e) : e.isAttr = true := by
  unfold renderElement DocElement.toPy at h
  simp only [Attr.get] at h
  split_ifs at h <;> simp_all [PyError.isAttr] <;> rw [← h]

theorem renderDocElements_error (els : List DocElement) (e : PyError)
    (h : renderDocElements els = .error e) : e.isAttr = true := by
  induction els with
  | nil => cases h
  | cons el els ih =>
    cases hv : renderElement el.toPy with
    | error e1 =>
      simp only [renderDocElements, hv] at h
      cases h; exact renderElement_toPy_error el _ hv
    | ok bs =>
      cases hrest : renderDocElements els with
      | error e2 =>
        simp only [renderDocElements, hv, hrest] at h
        cases h; exact ih hrest
      | ok rest => simp [renderDocElements, hv, hrest] at h

theorem renderSubsection_error (sub : Subsection) (e : PyError)
    (h : renderSubsection sub = .error e) : e.isAttr = true := by
  cases hv : renderDocElements sub.elements with
  | error e1 =>
    simp only [renderSubsection, hv] at h
    cases h; exact renderDocElements_error _ _ hv
  | ok bs => simp [renderSubsection, hv] at h

theorem renderSubsections_error (ss : List Subsection) (e : PyError)
    (h : renderSubsections ss = .error e) : e.isAttr = true := by
  induction ss with
  | nil => cases h
  | cons s ss ih =>
    cases hv : renderSubsection s with
    | error e1 =>
      simp only [renderSubsections, hv] at h
      cases h; exact renderSubsection_error s _ hv
    | ok bs =>
      cases hrest : renderSubsections ss with
      | error e2 =>
        simp only [renderSubsections, hv, hrest] at h
        cases h; exact ih hrest
      | ok rest => simp [renderSubsections, hv, hrest] at h

theorem renderSection_error (sec : Section) (e : PyError)
    (h : renderSection sec = .error e) : e.isAttr = true := by
  cases hv : renderDocElements sec.elements with
  | error e1 =>
    simp only [renderSection, hv] at h
    cases h; exact renderDocElements_error _ _ hv
  | ok els =>
    cases hs : sec.subsections with
    | none => simp [renderSection, hv, hs] at h
    | some ss =>
      cases hvs : renderSubsections ss with
      | error e2 =>
        simp only [renderSection, hv, hs, hvs] at h
        cases h; exact renderSubsections_error ss _ hvs
      | ok subs => simp [renderSection, hv, hs, hvs] at h

theorem renderSections_error (ss : List Section) (e : PyError)
    (h : renderSections ss = .error e) : e.isAttr = true := by
  induction ss with
  | nil => cases h
  | cons s ss ih =>
    cases hv : renderSection s with
    | error e1 =>
      simp only [renderSections, hv] at h
      cases h; exact renderSection_error s _ hv
    | ok bs =>
      cases hrest : renderSections ss with
      | error e2 =>
        simp only [renderSections, hv, hrest] at h
        cases h; exact ih hrest
      | ok rest => simp [renderSections, hv, hrest] at h

theorem assemble_error (d : DocStructure) (e : PyError)
    (h : assemble d = .error e) : e.isAttr = true :=
  renderSections_error d.sections e h

theorem findCandidate_none (st : PipelineState)
    (h : ∀ v, st.doc_structure = some v → usablePlanVal v = false) :
    findCandidate (some st) = none := by
  cases hds : st.doc_structure with
  | none => simp [findCandidate, hds]
  | some v =>
    cases v with
    | dict p =>
      have hv := h _ hds
      simp only [usablePlanVal] at hv
      simp [findCandidate, hds, hv]
    | typed d => exact absurd (h _ hds) (by simp [usablePlanVal])
    | str s => simp [findCandidate, hds]
    | other => simp [findCandidate, hds]

theorem findCandidate_dict_sections (ctx : Option PipelineState) (p : RawPlan)
    (h : findCandidate ctx = some (.dict p)) : p.sections.isSome = true := by
  cases ctx with
  | none => cases h
  | some st =>
    cases hds : st.doc_structure with
    | none => simp [findCandidate, hds] at h
    | some v =>
      cases v with
      | dict q =>
        by_cases hq : q.sections.isSome = true
        · simp only [findCandidate, hds, hq, if_true] at h
          cases h
          exact hq
        · simp [findCandidate, hds, hq] at h
      | typed d => simp only [findCandidate, hds] at h; cases h
      | str s => simp [findCandidate, hds] at h
      | other => simp [findCandidate, hds] at h

theorem coercePlan_dict_error (p : RawPlan) (e : PyError)
    (hs : p.sections.isSome = true) (h : coercePlan (.dict p) = .error e) :
    e.isValidation = true := by
  cases hsec : p.sections with
  | none => rw [hsec] at hs; cases hs
  | some secs =>
    cases hv : validateSections secs with
    | error e1 =>
      simp only [coercePlan, hsec, hv] at h
      cases h; exact validateSections_error secs _ hv
    | ok ss => simp [coercePlan, hsec, hv] at h

theorem create_docx_never_sectionsKeyError (op lg : Option String)
    (ctx : Option PipelineState) (cwd : String) :
    (create_docx_from_structure op lg ctx cwd).result
      ≠ .error (.valueError sectionsKeyMsg) := by
  intro h
  cases hc : findCandidate ctx with
  | none => simp [create_docx_from_structure, hc, planMissingMsg, sectionsKeyMsg] at h
  | some cand =>
    cases hcp : coercePlan cand with
    | error e =>
      simp only [create_docx_from_structure, hc, hcp, Except.error.injEq] at h
      subst h
      cases cand with
      | dict p =>
        have hv := coercePlan_dict_error p _ (findCandidate_dict_sections ctx p hc) hcp
        simp [PyError.isValidation] at hv
      | typed d => cases hcp
    | ok plan =>
      cases ha : assemble plan with
      | error e =>
        simp only [create_docx_from_structure, hc, hcp, ha, Except.error.injEq] at h
        subst h
        have hv := assemble_error plan _ ha
        simp [PyError.isAttr] at hv
      | ok bs => simp [create_docx_from_structure, hc, hcp, ha] at h


/-! Claim theorems. -/

/-- C1: the claim says a list element carrying a non-empty list_items renders
one list-item block per entry with content ignored.  The renderer dispatch
taken on its own does exactly that (first conjunct), but the pydantic element
model declares no list_items field, so the validated element reaching the
renderer lacks the attribute and the access raises AttributeError: the full
invocation on a plan whose ul element carries list_items and content aborts
instead of rendering the items (second conjunct). -/
theorem ul_list_precedence_claim_vs_code :
    renderElement (PyElement.mk "ul" (.val "a\nb") (.val ["x", "y"]) .absent .absent)
      = .ok [Block.para "x" (some "List Bullet"), Block.para "y" (some "List Bullet")] ∧
    (create_docx_from_structure none none
        (some (PipelineState.mk none none
          (some (.dict (RawPlan.mk (some [RawSection.mk (some "S1") none none
            (some [RawElement.mk (some "ul") (some "a\nb") (some ["x", "y"]) none none])
            none]))))
          none none)) "/w").result
      = .error (.attributeError "list_items") := by
  exact ⟨rfl, rfl⟩

/-- C2: the claim says a table element with non-empty table_data renders a
max-row-length-wide grid with bold header runs and blank ragged cells.  The
renderer dispatch taken on its own does exactly that (first conjunct, on the
claim example), but the pydantic element model declares no table_data field, so
the full invocation on such a plan raises AttributeError instead (second
conjunct). -/
theorem table_structured_claim_vs_code :
    renderElement (PyElement.mk "table" (.val "|z|") .absent
        (.val [["A", "B"], ["1", "2", "3"]]) .absent)
      = .ok [Block.table
          [[[Run.mk "A" true], [Run.mk "B" true], []],
           [[Run.mk "1" false], [Run.mk "2" false], [Run.mk "3" false]]]] ∧
    (create_docx_from_structure none none
        (some (PipelineState.mk none none
          (some (.dict (RawPlan.mk (some [RawSection.mk (some "T") none none
            (some [RawElement.mk (some "table") (some "|z|") none
              (some [["A", "B"], ["1", "2", "3"]]) none])
            none]))))
          none none)) "/w").result
      = .error (.attributeError "table_data") := by
  exact ⟨rfl, rfl⟩

/-- C3: the claim says every element attribute except type is optional and the
renderer never raises.  In the code content is a required field, so a paragraph
element without content fails validation (first conjunct), and the renderer
raises AttributeError on every validated unordered-list element because the
model declares no list_items attribute (second conjunct). -/
theorem renderer_totality_claim_vs_code :
    RawElement.validate (RawElement.mk (some "p") none none none none)
      = .error (.validationError "content") ∧
    renderElement (DocElement.toPy (DocElement.mk "ul" "alpha"))
      = .error (.attributeError "list_items") := by
  exact ⟨rfl, rfl⟩

/-- C4: the claim (and the function docstring) says an explicit call argument
takes precedence over the state entry.  The code applies the state entries
after the explicit arguments and therefore lets the state win: with explicit
output_path explicit.docx and language en against state entries state.docx and
ru, the resolved values, the saved file, the status and the recorded
document_language all come from the state. -/
theorem state_overrides_explicit_args :
    resolveOutputPath (some "explicit.docx")
        (some (PipelineState.mk (some "state.docx") (some "ru")
          (some (.dict (RawPlan.mk (some [])))) none none)) = "state.docx" ∧
    resolveLanguage (some "en")
        (some (PipelineState.mk (some "state.docx") (some "ru")
          (some (.dict (RawPlan.mk (some [])))) none none)) = "ru" ∧
    create_docx_from_structure (some "explicit.docx") (some "en")
        (some (PipelineState.mk (some "state.docx") (some "ru")
          (some (.dict (RawPlan.mk (some [])))) none none)) "/w"
      = DocxOutcome.mk (.ok "Docx created at state.docx (language: ru)")
          (some (PipelineState.mk (some "state.docx") (some "ru")
            (some (.dict (RawPlan.mk (some [])))) (some "ru") (some "/w/state.docx")))
          ["."] (some ("state.docx", [])) := by
  refine ⟨rfl, rfl, ?_⟩
  decide

/-- C5: an invocation whose state holds no usable doc_structure entry (neither
a mapping containing sections nor a typed DocStructure instance) fails with the
PlanMissingError message, creates no directory, saves no file and leaves the
state unchanged. -/
theorem missing_plan_fails_cleanly (op lg : Option String) (cwd : String)
    (st : PipelineState)
    (h : ∀ v, st.doc_structure = some v → usablePlanVal v = false) :
    create_docx_from_structure op lg (some st) cwd
      = DocxOutcome.mk (.error (.valueError planMissingMsg)) (some st) [] none := by
  simp only [create_docx_from_structure, findCandidate_none st h]

/-- C5 witness: an invocation whose state has no doc_structure key at all. -/
theorem missing_plan_fails_cleanly_witness :
    create_docx_from_structure none none
        (some (PipelineState.mk (some "o.docx") (some "en") none none none)) "/w"
      = DocxOutcome.mk (.error (.valueError planMissingMsg))
          (some (PipelineState.mk (some "o.docx") (some "en") none none none)) [] none :=
  missing_plan_fails_cleanly none none "/w"
    (PipelineState.mk (some "o.docx") (some "en") none none none)
    (fun v hv => by cases hv)

/-- C6 counterexample: a state whose doc_structure is a mapping without the
sections key fails with the PlanMissingError message, not with the
PlanShapeError message naming the missing field. -/
theorem dict_without_sections_not_shapeError :
    (create_docx_from_structure none none
        (some (PipelineState.mk none none (some (.dict (RawPlan.mk none))) none none))
        "/w").result
      = .error (.valueError planMissingMsg) ∧
    (create_docx_from_structure none none
        (some (PipelineState.mk none none (some (.dict (RawPlan.mk none))) none none))
        "/w").result
      ≠ .error (.valueError sectionsKeyMsg) := by
  refine ⟨rfl, ?_⟩
  decide

/-- C6 amended: a mapping candidate lacking the sections key is never selected
as a plan, so such an invocation fails with the PlanMissingError message; the
PlanShapeError branch checking the sections key is unreachable: no invocation
at all can return its message. -/
theorem dict_without_sections_planMissing (op lg : Option String) (cwd : String)
    (st : PipelineState) (p : RawPlan)
    (hds : st.doc_structure = some (.dict p)) (hsec : p.sections = none) :
    (create_docx_from_structure op lg (some st) cwd).result
      = .error (.valueError planMissingMsg) ∧
    ∀ (op2 lg2 : Option String) (ctx2 : Option PipelineState) (cwd2 : String),
      (create_docx_from_structure op2 lg2 ctx2 cwd2).result
        ≠ .error (.valueError sectionsKeyMsg) := by
  constructor
  · have hfc : findCandidate (some st) = none :=
      findCandidate_none st (fun v hv => by
        rw [hds] at hv
        cases hv
        simp [usablePlanVal, hsec])
    simp [create_docx_from_structure, hfc]
  · exact fun op2 lg2 ctx2 cwd2 =>
      create_docx_never_sectionsKeyError op2 lg2 ctx2 cwd2

/-- C6 witness: the amended statement applied to a concrete mapping without
the sections key and a concrete other invocation. -/
theorem dict_without_sections_planMissing_witness :
    (create_docx_from_structure none none
        (some (PipelineState.mk none none (some (.dict (RawPlan.mk none))) none none))
        "/x").result
      = .error (.valueError planMissingMsg) ∧
    (create_docx_from_structure (some "a.docx") (some "en") none "/x").result
      ≠ .error (.valueError sectionsKeyMsg) :=
  ⟨(dict_without_sections_planMissing none none "/x"
      (PipelineState.mk none none (some (.dict (RawPlan.mk none))) none none)
      (RawPlan.mk none) rfl rfl).1,
   (dict_without_sections_planMissing none none "/x"
      (PipelineState.mk none none (some (.dict (RawPlan.mk none))) none none)
      (RawPlan.mk none) rfl rfl).2 (some "a.docx") (some "en") none "/x"⟩

/-- C7 counterexample: the fenced JSON text of the claim placed as the
doc_structure state entry is not normalized to a zero-section plan: the
invocation fails with the PlanMissingError message, mutates nothing and saves
nothing. -/
theorem fenced_text_not_accepted :
    create_docx_from_structure none none
        (some (PipelineState.mk none none
          (some (.str "```json\n\x7b\"sections\":[]\x7d\n```")) none none)) "/w"
      = DocxOutcome.mk (.error (.valueError planMissingMsg))
          (some (PipelineState.mk none none
            (some (.str "```json\n\x7b\"sections\":[]\x7d\n```")) none none))
          [] none := rfl

/-- C7 amended: the renderer never decodes a textual candidate: any string
doc_structure entry yields the PlanMissingError outcome with nothing created
or saved, so the JSON-decode branch and the PlanParseError snippet are dead
code there.  Fence stripping lives in the planner save callback, whose text
normalization maps the fenced example of the claim to the bare JSON object
text. -/
theorem textual_candidate_rejected (s : String) (op lg : Option String)
    (cwd : String) (st : PipelineState)
    (hds : st.doc_structure = some (.str s)) :
    create_docx_from_structure op lg (some st) cwd
      = DocxOutcome.mk (.error (.valueError planMissingMsg)) (some st) [] none ∧
    stripFencedText "```json\n\x7b\"sections\":[]\x7d\n```"
      = "\x7b\"sections\":[]\x7d" := by
  constructor
  · have hfc : findCandidate (some st) = none := by
      simp [findCandidate, hds]
    simp [create_docx_from_structure, hfc]
  · rfl

/-- C7 witness: the amended statement applied to a concrete textual state
entry. -/
theorem textual_candidate_rejected_witness :
    create_docx_from_structure none none
        (some (PipelineState.mk none none (some (.str "not json")) none none)) "/y"
      = DocxOutcome.mk (.error (.valueError planMissingMsg))
          (some (PipelineState.mk none none (some (.str "not json")) none none))
          [] none ∧
    stripFencedText "```json\n\x7b\"sections\":[]\x7d\n```"
      = "\x7b\"sections\":[]\x7d" :=
  textual_candidate_rejected "not json" none none "/y"
    (PipelineState.mk none none (some (.str "not json")) none none) rfl

/-- C8 counterexample: a plan whose element carries the unrecognized type
callout aborts the invocation with a validation error during normalization
instead of rendering a plain paragraph. -/
theorem callout_aborts_run :
    create_docx_from_structure none none
        (some (PipelineState.mk none none
          (some (.dict (RawPlan.mk (some [RawSection.mk (some "S") none none
            (some [RawElement.mk (some "callout") (some "note") none none none])
            none]))))
          none none)) "/w"
      = DocxOutcome.mk (.error (.validationError "type"))
          (some (PipelineState.mk none none
            (some (.dict (RawPlan.mk (some [RawSection.mk (some "S") none none
              (some [RawElement.mk (some "callout") (some "note") none none none])
              none]))))
            none none)) [] none := rfl

/-- C8 amended: for a type outside every renderer dispatch branch, the dispatch
taken on its own appends the content as one plain paragraph; but every such
type is also outside the model Literal, so pydantic validation rejects the
element and an unknown element kind aborts the invocation at plan
normalization, never reaching the renderer. -/
theorem unknown_type_validation_rejects (t : String)
    (hd : rendererDispatchTag t = false) :
    (∀ (c : String) (li : Attr (List String)) (td : Attr (List (List String)))
        (qt : Attr String),
      renderElement (PyElement.mk t (.val c) li td qt) = .ok [Block.para c none]) ∧
    (∀ r : RawElement, r.type = some t →
      r.validate = .error (.validationError "type")) := by
  have hor : ¬(t = "p" ∨ t = "ul" ∨ t = "ol" ∨ t = "li" ∨ t = "table" ∨ t = "quote"
      ∨ t = "h1" ∨ t = "h2" ∨ t = "h3" ∨ t = "h4" ∨ t = "h5" ∨ t = "h6") := by
    intro hx
    rcases hx with h | h | h | h | h | h | h | h | h | h | h | h <;> subst h <;>
      exact absurd hd (by decide)
  push_neg at hor
  obtain ⟨np, nul, nol, nli, ntb, nq, n1, n2, n3, n4, n5, n6⟩ := hor
  constructor
  · intro c li td qt
    simp [renderElement, Attr.get, isHeadingTag,
      np, nul, nol, nli, ntb, nq, n1, n2, n3, n4, n5, n6]
  · intro r hr
    simp [RawElement.validate, hr, docElementTypeOk,
      np, nul, nli, ntb, n1, n2, n3, n4, n5, n6]

/-- C8 witness: the amended statement applied to the callout type of the
claim, at a concrete content and a concrete raw element. -/
theorem unknown_type_validation_rejects_witness :
    renderElement (PyElement.mk "callout" (.val "hint") .absent .absent .absent)
      = .ok [Block.para "hint" none] ∧
    RawElement.validate (RawElement.mk (some "callout") (some "hint") none none none)
      = .error (.validationError "type") :=
  ⟨(unknown_type_validation_rejects "callout" (by decide)).1 "hint" .absent .absent .absent,
   (unknown_type_validation_rejects "callout" (by decide)).2
     (RawElement.mk (some "callout") (some "hint") none none none) rfl⟩

theorem renderElement_safe (el : DocElement) (h : safeKind el.type = true) :
    renderElement el.toPy = .ok (safeElementBlocks el) := by
  obtain ⟨t, c⟩ := el
  simp only [safeKind, Bool.or_eq_true, beq_iff_eq] at h
  rcases h with ((((((h | h) | h) | h) | h) | h) | h) <;> subst h <;> rfl

theorem renderDocElements_safe (els : List DocElement)
    (h : els.all (fun el => safeKind el.type) = true) :
    renderDocElements els = .ok (els.map safeElementBlocks).flatten := by
  induction els with
  | nil => rfl
  | cons el els ih =>
    simp only [List.all_cons, Bool.and_eq_true] at h
    simp [renderDocElements, renderElement_safe el h.1, ih h.2]

theorem renderSubsection_safe (sub : Subsection) (h : sub.allSafe = true) :
    renderSubsection sub = .ok (plannedSubsectionBlocks sub) := by
  simp [renderSubsection, renderDocElements_safe sub.elements h,
    plannedSubsectionBlocks]

theorem renderSubsections_safe (ss : List Subsection)
    (h : ss.all Subsection.allSafe = true) :
    renderSubsections ss = .ok (ss.map plannedSubsectionBlocks).flatten := by
  induction ss with
  | nil => rfl
  | cons s ss ih =>
    simp only [List.all_cons, Bool.and_eq_true] at h
    simp [renderSubsections, renderSubsection_safe s h.1, ih h.2]

theorem renderSection_safe (sec : Section) (h : sec.allSafe = true) :
    renderSection sec = .ok (plannedSectionBlocks sec) := by
  simp only [Section.allSafe, Bool.and_eq_true] at h
  cases hs : sec.subsections with
  | none =>
    simp [renderSection, renderDocElements_safe sec.elements h.1, hs,
      plannedSectionBlocks]
  | some ss =>
    have h2 : ss.all Subsection.allSafe = true := by
      have := h.2
      rw [hs] at this
      simpa using this
    simp [renderSection, renderDocElements_safe sec.elements h.1, hs,
      renderSubsections_safe ss h2, plannedSectionBlocks]

theorem renderSections_safe (secs : List Section)
    (h : secs.all Section.allSafe = true) :
    renderSections secs = .ok (secs.map plannedSectionBlocks).flatten := by
  induction secs with
  | nil => rfl
  | cons s ss ih =>
    simp only [List.all_cons, Bool.and_eq_true] at h
    simp [renderSections, renderSection_safe s h.1, ih h.2]

theorem levelOneTitles_append (a b : List Block) :
    levelOneTitles (a ++ b) = levelOneTitles a ++ levelOneTitles b := by
  simp [levelOneTitles, List.filterMap_append]

theorem levelOneTitles_cons_heading1 (t : String) (rest : List Block) :
    levelOneTitles (Block.heading t 1 :: rest) = t :: levelOneTitles rest := by
  simp [levelOneTitles]

theorem levelOneTitles_ite_para (b : Bool) (s : String) :
    levelOneTitles (if b = true then [Block.para s none] else []) = [] := by
  split <;> rfl

theorem levelOneTitles_safeElement (el : DocElement) (h : safeKind el.type = true) :
    levelOneTitles (safeElementBlocks el) = [] := by
  obtain ⟨t, c⟩ := el
  simp only [safeKind, Bool.or_eq_true, beq_iff_eq] at h
  rcases h with ((((((h | h) | h) | h) | h) | h) | h) <;> subst h <;> rfl

theorem levelOneTitles_flatten_safe (els : List DocElement)
    (h : els.all (fun el => safeKind el.type) = true) :
    levelOneTitles (els.map safeElementBlocks).flatten = [] := by
  induction els with
  | nil => rfl
  | cons el els ih =>
    simp only [List.all_cons, Bool.and_eq_true] at h
    simp [levelOneTitles_append, levelOneTitles_safeElement el h.1, ih h.2]

theorem levelOneTitles_plannedSub (sub : Subsection) (h : sub.allSafe = true) :
    levelOneTitles (plannedSubsectionBlocks sub) = [] := by
  have : levelOneTitles (Block.heading sub.title 2
      :: (sub.elements.map safeElementBlocks).flatten)
      = levelOneTitles (sub.elements.map safeElementBlocks).flatten := by
    simp [levelOneTitles]
  rw [plannedSubsectionBlocks, this, levelOneTitles_flatten_safe _ h]

theorem levelOneTitles_subs_flatten (ss : List Subsection)
    (h : ss.all Subsection.allSafe = true) :
    levelOneTitles (ss.map plannedSubsectionBlocks).flatten = [] := by
  induction ss with
  | nil => rfl
  | cons s ss ih =>
    simp only [List.all_cons, Bool.and_eq_true] at h
    simp [levelOneTitles_append, levelOneTitles_plannedSub s h.1, ih h.2]

theorem levelOneTitles_plannedSection (sec : Section) (h : sec.allSafe = true) :
    levelOneTitles (plannedSectionBlocks sec) = [sec.title] := by
  simp only [Section.allSafe, Bool.and_eq_true] at h
  simp [plannedSectionBlocks, levelOneTitles_cons_heading1, levelOneTitles_append,
    levelOneTitles_flatten_safe _ h.1, levelOneTitles_subs_flatten _ h.2,
    levelOneTitles_ite_para]

theorem levelOneTitles_sections (secs : List Section)
    (h : secs.all Section.allSafe = true) :
    levelOneTitles (secs.map plannedSectionBlocks).flatten
      = secs.map Section.title := by
  induction secs with
  | nil => rfl
  | cons s ss ih =>
    simp only [List.all_cons, Bool.and_eq_true] at h
    simp [levelOneTitles_append, levelOneTitles_plannedSection s h.1, ih h.2]

/-- C9 counterexample: a valid plan with one section whose single element is an
unordered list makes assembly raise AttributeError instead of producing a
document with one section heading. -/
theorem valid_plan_assembly_crashes :
    assemble (DocStructure.mk [Section.mk "Sec9" none none
        [DocElement.mk "ul" "one\ntwo"] none])
      = .error (.attributeError "list_items") := rfl

/-- C9 amended: for every plan all of whose elements (subsection elements
included) have kinds among p, li and h2 to h6, assembly succeeds and emits per
section, in plan order: the level-1 title heading, the description paragraph
when truthy, the element blocks in order, per subsection a level-2 heading
followed by its element blocks, and the conclusion paragraph when truthy; the
level-1 headings of the output are then exactly the section titles in order.
Plans containing ul or table elements instead raise AttributeError. -/
theorem assembly_order_for_safe_plans (d : DocStructure)
    (hsafe : d.allSafe = true) (_hne : 0 < d.sections.length) :
    assemble d = .ok (d.sections.map plannedSectionBlocks).flatten ∧
    levelOneTitles (d.sections.map plannedSectionBlocks).flatten
      = d.sections.map Section.title :=
  ⟨renderSections_safe d.sections hsafe, levelOneTitles_sections d.sections hsafe⟩

/-- C9 witness: the amended statement applied to a concrete one-section safe
plan. -/
theorem assembly_order_for_safe_plans_witness :
    assemble (DocStructure.mk [Section.mk "W1" none none [DocElement.mk "p" "w"] none])
      = .ok (([Section.mk "W1" none none [DocElement.mk "p" "w"] none].map
          plannedSectionBlocks).flatten) ∧
    levelOneTitles (([Section.mk "W1" none none [DocElement.mk "p" "w"] none].map
          plannedSectionBlocks).flatten)
      = [Section.mk "W1" none none [DocElement.mk "p" "w"] none].map Section.title :=
  assembly_order_for_safe_plans
    (DocStructure.mk [Section.mk "W1" none none [DocElement.mk "p" "w"] none])
    (by decide) (by decide)

/-- C10: the resolved language is stored into the state before assembly and
saving, generated_docx only after a successful save: when the selected plan
coerces but assembly raises, the outcome carries the mutated document_language
while generated_docx is untouched and nothing is saved; when assembly
succeeds, both keys are written and the file is saved. -/
theorem document_language_written_before_save (op lg : Option String)
    (cwd : String) (st : PipelineState) (cand : Candidate) (plan : DocStructure)
    (h1 : findCandidate (some st) = some cand)
    (h2 : coercePlan cand = .ok plan) :
    (∀ e, assemble plan = .error e →
      create_docx_from_structure op lg (some st) cwd
        = DocxOutcome.mk (.error e)
            (some { st with document_language := some (resolveLanguage lg (some st)) })
            [parentDir (resolveOutputPath op (some st))] none) ∧
    (∀ bs, assemble plan = .ok bs →
      create_docx_from_structure op lg (some st) cwd
        = DocxOutcome.mk
            (.ok ("Docx created at " ++ resolveOutputPath op (some st)
              ++ " (language: " ++ resolveLanguage lg (some st) ++ ")"))
            (some { st with
                document_language := some (resolveLanguage lg (some st)),
                generated_docx := some (absolutize cwd (resolveOutputPath op (some st))) })
            [parentDir (resolveOutputPath op (some st))]
            (some (resolveOutputPath op (some st), bs))) := by
  constructor
  · intro e he
    simp [create_docx_from_structure, h1, h2, he]
  · intro bs hb
    simp [create_docx_from_structure, h1, h2, hb]

/-- C10 witness: the error conjunct applied to a typed plan whose table
element makes assembly raise: the final state carries document_language uk
while generated_docx stays absent and nothing is saved. -/
theorem document_language_written_before_save_witness :
    create_docx_from_structure none none
        (some (PipelineState.mk none none
          (some (.typed (DocStructure.mk [Section.mk "V" none none
            [DocElement.mk "table" "x"] none])))
          none none)) "/w"
      = DocxOutcome.mk (.error (.attributeError "table_data"))
          (some (PipelineState.mk none none
            (some (.typed (DocStructure.mk [Section.mk "V" none none
              [DocElement.mk "table" "x"] none])))
            (some "uk") none))
          ["."] none :=
  (document_language_written_before_save none none "/w"
    (PipelineState.mk none none
      (some (.typed (DocStructure.mk [Section.mk "V" none none
        [DocElement.mk "table" "x"] none])))
      none none)
    (Candidate.typed (DocStructure.mk [Section.mk "V" none none
      [DocElement.mk "table" "x"] none]))
    (DocStructure.mk [Section.mk "V" none none [DocElement.mk "table" "x"] none])
    rfl rfl).1 (.attributeError "table_data") rfl

end DiagDocx
